import Mathlib

/-!
Shallow embedding of the `DeFiLending` Solidity contract (pragma ^0.8.0).

Conventions of the embedding:
* `uint256` is modelled as `Nat`.  Solidity 0.8 arithmetic is checked: an
  overflowing addition/multiplication or an underflowing subtraction reverts
  instead of wrapping, so no incorrect value is ever produced.  Every
  subtraction site of the contract is either guarded by a `require` in the
  source or modelled here with an explicit underflow check that raises
  `Err.underflow` (mirroring the Solidity panic revert).
* `address` is modelled as `Nat` (`0` is `address(0)`).
* A reverting call is an `Except.error`: the caller's state is unchanged,
  which models the all-or-nothing rollback of a reverted transaction.
* `block.timestamp` and the external collaborators (Chainlink oracle answer,
  ERC20 transfer success) are inputs of each call, collected in `Env`.
* Storage mappings are association lists read through a total lookup that
  returns the all-zero default record when the key is absent, exactly as a
  Solidity mapping does.
-/

/-- Mirrors `struct Asset` of the contract. -/
structure Asset where
  tokenAddress : Nat
  priceFeedAddress : Nat
  collateralFactor : Nat
  borrowFactor : Nat
  liquidationThreshold : Nat
  totalSupplied : Nat
  totalBorrowed : Nat
  supplyInterestRate : Nat
  borrowInterestRate : Nat
  isActive : Bool
deriving DecidableEq, Repr

/-- The default value of a `mapping(string => Asset)` slot: all fields zero,
`isActive = false`. -/
def Asset.default : Asset :=
  { tokenAddress := 0, priceFeedAddress := 0, collateralFactor := 0,
    borrowFactor := 0, liquidationThreshold := 0, totalSupplied := 0,
    totalBorrowed := 0, supplyInterestRate := 0, borrowInterestRate := 0,
    isActive := false }

/-- Mirrors `struct UserPosition` of the contract. -/
structure UserPosition where
  supplied : Nat
  borrowed : Nat
  lastUpdateTimestamp : Nat
deriving DecidableEq, Repr

/-- The default value of a `userPositions` mapping slot. -/
def UserPosition.default : UserPosition :=
  { supplied := 0, borrowed := 0, lastUpdateTimestamp := 0 }

/-- Revert reasons of the contract, one constructor per `require` message
(`underflow` stands for the Solidity 0.8 checked-arithmetic panic). -/
inductive Err where
  | assetExists
  | collateralFactorTooHigh
  | borrowFactorTooHigh
  | invalidLiquidationThreshold
  | assetNotExist
  | invalidPrice
  | assetNotActive
  | invalidAmount
  | insufficientBalance
  | insufficientLiquidity
  | noOutstandingLoan
  | healthFactorTooLow
  | positionHealthy
  | insufficientCollateral
  | transferFailed
  | underflow
deriving DecidableEq, Repr

/-- Contract storage: the `assets` mapping, the `assetSymbols` array and the
`userPositions` mapping (keyed by user address then symbol). -/
structure LendingState where
  assets : List (String × Asset)
  assetSymbols : List String
  userPositions : List ((Nat × String) × UserPosition)
deriving DecidableEq, Repr

/-- The state right after the constructor runs: all storage empty. -/
def LendingState.init : LendingState :=
  { assets := [], assetSymbols := [], userPositions := [] }

/-- Reading `assets[symbol]` (total, with the mapping's zero default). -/
def lookupAsset (s : LendingState) (symbol : String) : Asset :=
  ((s.assets.find? (fun p => p.1 == symbol)).map Prod.snd).getD Asset.default

/-- Reading `userPositions[user][symbol]`. -/
def lookupPosition (s : LendingState) (user : Nat) (symbol : String) : UserPosition :=
  ((s.userPositions.find? (fun p => p.1 == (user, symbol))).map Prod.snd).getD
    UserPosition.default

/-- Writing `assets[symbol] = a` (newest binding shadows older ones). -/
def storeAsset (s : LendingState) (symbol : String) (a : Asset) : LendingState :=
  { s with assets := (symbol, a) :: s.assets }

/-- Writing `userPositions[user][symbol] = p`. -/
def storePosition (s : LendingState) (user : Nat) (symbol : String)
    (p : UserPosition) : LendingState :=
  { s with userPositions := ((user, symbol), p) :: s.userPositions }

/-- Per-call environment: `block.timestamp`, the raw `int256` answer of the
Chainlink feed, and whether the ERC20 transfer calls of this transaction
succeed. -/
structure Env where
  now : Nat
  rawPrice : Int
  transferOk : Bool
deriving DecidableEq, Repr

/-- `365 days` in seconds. -/
def secondsPerYear : Nat := 365 * 86400

/-- `addAsset` (onlyOwner; the access check is outside the ledger math). -/
def addAsset (s : LendingState) (symbol : String)
    (tokenAddress priceFeedAddress collateralFactor borrowFactor
     liquidationThreshold supplyInterestRate borrowInterestRate : Nat) :
    Except Err LendingState :=
  if (lookupAsset s symbol).tokenAddress ≠ 0 then .error .assetExists
  else if ¬ collateralFactor ≤ 9000 then .error .collateralFactorTooHigh
  else if ¬ borrowFactor ≤ collateralFactor then .error .borrowFactorTooHigh
  else if ¬ liquidationThreshold > collateralFactor then
    .error .invalidLiquidationThreshold
  else
    .ok { storeAsset s symbol
            { tokenAddress := tokenAddress, priceFeedAddress := priceFeedAddress,
              collateralFactor := collateralFactor, borrowFactor := borrowFactor,
              liquidationThreshold := liquidationThreshold,
              totalSupplied := 0, totalBorrowed := 0,
              supplyInterestRate := supplyInterestRate,
              borrowInterestRate := borrowInterestRate, isActive := true }
          with assetSymbols := s.assetSymbols ++ [symbol] }

/-- `updateAsset`. -/
def updateAsset (s : LendingState) (symbol : String)
    (collateralFactor borrowFactor liquidationThreshold supplyInterestRate
     borrowInterestRate : Nat) (isActive : Bool) : Except Err LendingState :=
  let a := lookupAsset s symbol
  if a.tokenAddress = 0 then .error .assetNotExist
  else if ¬ collateralFactor ≤ 9000 then .error .collateralFactorTooHigh
  else if ¬ borrowFactor ≤ collateralFactor then .error .borrowFactorTooHigh
  else if ¬ liquidationThreshold > collateralFactor then
    .error .invalidLiquidationThreshold
  else
    .ok (storeAsset s symbol
      { a with collateralFactor := collateralFactor, borrowFactor := borrowFactor,
               liquidationThreshold := liquidationThreshold,
               supplyInterestRate := supplyInterestRate,
               borrowInterestRate := borrowInterestRate, isActive := isActive })

/-- `getAssetPrice`: requires a listed asset and a positive oracle answer,
then scales the answer to 18 decimals. -/
def getAssetPrice (env : Env) (s : LendingState) (symbol : String) :
    Except Err Nat :=
  let a := lookupAsset s symbol
  if a.tokenAddress = 0 then .error .assetNotExist
  else if env.rawPrice ≤ 0 then .error .invalidPrice
  else .ok (env.rawPrice.toNat * 10 ^ 10)

/-- `_updateInterest`: lazy simple-interest accrual for one position,
mutating the position and the asset aggregates together.  The
`now < lastUpdateTimestamp` case is the checked subtraction
`block.timestamp - position.lastUpdateTimestamp` reverting. -/
def updateInterest (a : Asset) (p : UserPosition) (now : Nat) :
    Except Err (Asset × UserPosition) :=
  if p.lastUpdateTimestamp = 0 then
    .ok (a, { p with lastUpdateTimestamp := now })
  else if now < p.lastUpdateTimestamp then .error .underflow
  else
    let timeElapsed := now - p.lastUpdateTimestamp
    if timeElapsed = 0 then .ok (a, p)
    else
      let step1 : Asset × UserPosition :=
        if p.supplied > 0 then
          let supplyInterest :=
            p.supplied * a.supplyInterestRate * timeElapsed /
              (10000 * secondsPerYear)
          ({ a with totalSupplied := a.totalSupplied + supplyInterest },
           { p with supplied := p.supplied + supplyInterest })
        else (a, p)
      let step2 : Asset × UserPosition :=
        if step1.2.borrowed > 0 then
          let borrowInterest :=
            step1.2.borrowed * step1.1.borrowInterestRate * timeElapsed /
              (10000 * secondsPerYear)
          ({ step1.1 with totalBorrowed := step1.1.totalBorrowed + borrowInterest },
           { step1.2 with borrowed := step1.2.borrowed + borrowInterest })
        else step1
      .ok (step2.1, { step2.2 with lastUpdateTimestamp := now })

/-- `_checkHealthFactor`: healthy iff no debt, or collateral value under the
collateral factor covers the debt value. -/
def checkHealthFactor (env : Env) (s : LendingState) (symbol : String)
    (supplied borrowed : Nat) : Except Err Bool :=
  if borrowed = 0 then .ok true
  else do
    let assetPrice ← getAssetPrice env s symbol
    let a := lookupAsset s symbol
    .ok (decide
      (borrowed * assetPrice ≤ supplied * assetPrice * a.collateralFactor / 10000))

/-- `_isHealthy`: like `checkHealthFactor` but on the stored position and
under the stricter `liquidationThreshold`. -/
def isHealthy (env : Env) (s : LendingState) (symbol : String) (user : Nat) :
    Except Err Bool :=
  let p := lookupPosition s user symbol
  if p.borrowed = 0 then .ok true
  else do
    let assetPrice ← getAssetPrice env s symbol
    let a := lookupAsset s symbol
    .ok (decide
      (p.borrowed * assetPrice ≤
        p.supplied * assetPrice * a.liquidationThreshold / 10000))

/-- `supply(symbol, amount)` called by `user`. -/
def supply (env : Env) (s : LendingState) (user : Nat) (symbol : String)
    (amount : Nat) : Except Err LendingState := do
  let asset := lookupAsset s symbol
  if asset.isActive = false then .error .assetNotActive
  else if amount = 0 then .error .invalidAmount
  else do
    let ap ← updateInterest asset (lookupPosition s user symbol) env.now
    let a1 := ap.1
    let p1 := ap.2
    if env.transferOk = false then .error .transferFailed
    else
      .ok (storePosition
            (storeAsset (storePosition (storeAsset s symbol a1) user symbol p1)
              symbol { a1 with totalSupplied := a1.totalSupplied + amount })
            user symbol { p1 with supplied := p1.supplied + amount })

/-- `withdraw(symbol, amount)` called by `user`.  Note that the balance
check reads `position.supplied` before interest accrual. -/
def withdraw (env : Env) (s : LendingState) (user : Nat) (symbol : String)
    (amount : Nat) : Except Err LendingState := do
  let asset := lookupAsset s symbol
  let position := lookupPosition s user symbol
  if asset.isActive = false then .error .assetNotActive
  else if amount = 0 then .error .invalidAmount
  else if position.supplied < amount then .error .insufficientBalance
  else do
    let ap ← updateInterest asset position env.now
    let a1 := ap.1
    let p1 := ap.2
    let s1 := storePosition (storeAsset s symbol a1) user symbol p1
    let newSupplied := p1.supplied - amount
    let healthy ← checkHealthFactor env s1 symbol newSupplied p1.borrowed
    if healthy = false then .error .healthFactorTooLow
    else if a1.totalSupplied < amount then .error .underflow
    else if env.transferOk = false then .error .transferFailed
    else
      .ok (storePosition
            (storeAsset s1 symbol
              { a1 with totalSupplied := a1.totalSupplied - amount })
            user symbol { p1 with supplied := newSupplied })

/-- `borrow(symbol, amount)` called by `user`.  The liquidity check
`totalSupplied - totalBorrowed >= amount` is a checked subtraction, so it
reverts exactly when `totalSupplied < totalBorrowed + amount`. -/
def borrow (env : Env) (s : LendingState) (user : Nat) (symbol : String)
    (amount : Nat) : Except Err LendingState := do
  let asset := lookupAsset s symbol
  if asset.isActive = false then .error .assetNotActive
  else if amount = 0 then .error .invalidAmount
  else if asset.totalSupplied < asset.totalBorrowed + amount then
    .error .insufficientLiquidity
  else do
    let ap ← updateInterest asset (lookupPosition s user symbol) env.now
    let a1 := ap.1
    let p1 := ap.2
    let s1 := storePosition (storeAsset s symbol a1) user symbol p1
    let healthy ← checkHealthFactor env s1 symbol p1.supplied (p1.borrowed + amount)
    if healthy = false then .error .healthFactorTooLow
    else if env.transferOk = false then .error .transferFailed
    else
      .ok (storePosition
            (storeAsset s1 symbol
              { a1 with totalBorrowed := a1.totalBorrowed + amount })
            user symbol { p1 with borrowed := p1.borrowed + amount })

/-- `repay(symbol, amount)` called by `user`; overpayment is capped at the
outstanding debt. -/
def repay (env : Env) (s : LendingState) (user : Nat) (symbol : String)
    (amount : Nat) : Except Err LendingState := do
  let asset := lookupAsset s symbol
  let position := lookupPosition s user symbol
  if asset.isActive = false then .error .assetNotActive
  else if amount = 0 then .error .invalidAmount
  else if position.borrowed = 0 then .error .noOutstandingLoan
  else do
    let ap ← updateInterest asset position env.now
    let a1 := ap.1
    let p1 := ap.2
    let s1 := storePosition (storeAsset s symbol a1) user symbol p1
    let repayAmount := if amount > p1.borrowed then p1.borrowed else amount
    if env.transferOk = false then .error .transferFailed
    else if a1.totalBorrowed < repayAmount then .error .underflow
    else
      .ok (storePosition
            (storeAsset s1 symbol
              { a1 with totalBorrowed := a1.totalBorrowed - repayAmount })
            user symbol { p1 with borrowed := p1.borrowed - repayAmount })

/-- The collateral seized by a liquidation, as the contract computes it:
`(liquidationAmount * assetPrice * 11000) / (assetPrice * 10000)`. -/
def collateralToSeize (liquidationAmount assetPrice : Nat) : Nat :=
  liquidationAmount * assetPrice * 11000 / (assetPrice * 10000)

/-- `liquidate(borrower, symbol, amount)` called by a liquidator. -/
def liquidate (env : Env) (s : LendingState) (borrower : Nat) (symbol : String)
    (amount : Nat) : Except Err LendingState := do
  let asset := lookupAsset s symbol
  let position := lookupPosition s borrower symbol
  if asset.isActive = false then .error .assetNotActive
  else if amount = 0 then .error .invalidAmount
  else if position.borrowed = 0 then .error .noOutstandingLoan
  else do
    let ap ← updateInterest asset position env.now
    let a1 := ap.1
    let p1 := ap.2
    let s1 := storePosition (storeAsset s symbol a1) borrower symbol p1
    let healthy ← isHealthy env s1 symbol borrower
    if healthy = true then .error .positionHealthy
    else do
      let liquidationAmount := if amount > p1.borrowed then p1.borrowed else amount
      let assetPrice ← getAssetPrice env s1 symbol
      let seize := collateralToSeize liquidationAmount assetPrice
      if ¬ seize ≤ p1.supplied then .error .insufficientCollateral
      else if env.transferOk = false then .error .transferFailed
      else if a1.totalBorrowed < liquidationAmount then .error .underflow
      else if a1.totalSupplied < seize then .error .underflow
      else
        .ok (storePosition
              (storeAsset s1 symbol
                { a1 with totalBorrowed := a1.totalBorrowed - liquidationAmount,
                          totalSupplied := a1.totalSupplied - seize })
              borrower symbol
              { p1 with borrowed := p1.borrowed - liquidationAmount,
                        supplied := p1.supplied - seize })

/-- `getAssetDetails`: a pure read of the asset record. -/
def getAssetDetails (s : LendingState) (symbol : String) : Asset :=
  lookupAsset s symbol

/-- The public `userPositions` getter: a pure read of the position record. -/
def getUserPosition (s : LendingState) (user : Nat) (symbol : String) :
    UserPosition :=
  lookupPosition s user symbol

/-! ### Basic lemmas about storage reads and writes -/

theorem lookupAsset_storeAsset_same (s : LendingState) (k : String) (a : Asset) :
    lookupAsset (storeAsset s k a) k = a := by
  simp [lookupAsset, storeAsset, List.find?]

theorem lookupAsset_storePosition (s : LendingState) (u : Nat) (k : String)
    (p : UserPosition) (k' : String) :
    lookupAsset (storePosition s u k p) k' = lookupAsset s k' := by
  simp [lookupAsset, storePosition]

theorem lookupPosition_storePosition_same (s : LendingState) (u : Nat)
    (k : String) (p : UserPosition) :
    lookupPosition (storePosition s u k p) u k = p := by
  simp [lookupPosition, storePosition, List.find?]

theorem lookupPosition_storeAsset (s : LendingState) (k : String) (a : Asset)
    (u : Nat) (k' : String) :
    lookupPosition (storeAsset s k a) u k' = lookupPosition s u k' := by
  simp [lookupPosition, storeAsset]

/-! ### Lemmas about `updateInterest` -/


/-- Interest accrual only ever reverts with the checked-subtraction panic. -/
theorem updateInterest_error_eq (a : Asset) (p : UserPosition) (now : Nat)
    (e : Err) (h : updateInterest a p now = .error e) : e = .underflow := by
  by_cases h0 : p.lastUpdateTimestamp = 0
  · simp [updateInterest, h0] at h
  · by_cases hlt : now < p.lastUpdateTimestamp
    · simp [updateInterest, h0, hlt] at h
      exact h.symm
    · by_cases he : now - p.lastUpdateTimestamp = 0
      · simp [updateInterest, h0, hlt, he] at h
      · by_cases hs : 0 < p.supplied <;> by_cases hb : 0 < p.borrowed <;>
          simp [updateInterest, h0, hlt, he, hs, hb] at h

/-- A successful accrual adds some supply interest `si` and borrow interest
`bi` to the position and to the asset aggregates alike, and stamps the
position with the current time. -/
theorem updateInterest_ok_shape (a : Asset) (p : UserPosition) (now : Nat)
    (a1 : Asset) (p1 : UserPosition)
    (h : updateInterest a p now = .ok (a1, p1)) :
    ∃ si bi,
      p1 = { p with supplied := p.supplied + si, borrowed := p.borrowed + bi,
                    lastUpdateTimestamp := now } ∧
      a1 = { a with totalSupplied := a.totalSupplied + si,
                    totalBorrowed := a.totalBorrowed + bi } := by
  by_cases h0 : p.lastUpdateTimestamp = 0
  · simp only [updateInterest, h0, if_true, ite_true, Except.ok.injEq,
      Prod.mk.injEq] at h
    obtain ⟨ha, hp⟩ := h
    subst ha; subst hp
    exact ⟨0, 0, by simp, by simp⟩
  · by_cases hlt : now < p.lastUpdateTimestamp
    · simp [updateInterest, h0, hlt] at h
    · by_cases he : now - p.lastUpdateTimestamp = 0
      · simp only [updateInterest, h0, hlt, he, if_true, if_false, ite_true,
          ite_false, Except.ok.injEq, Prod.mk.injEq] at h
        obtain ⟨ha, hp⟩ := h
        subst ha; subst hp
        have hn : p.lastUpdateTimestamp = now := by omega
        refine ⟨0, 0, ?_, by simp⟩
        rw [← hn]
        simp
      · by_cases hs : 0 < p.supplied <;> by_cases hb : 0 < p.borrowed <;>
          simp only [updateInterest, h0, hlt, he, hs, hb, if_true, if_false,
            ite_true, ite_false, gt_iff_lt, Except.ok.injEq, Prod.mk.injEq] at h <;>
          obtain ⟨ha, hp⟩ := h <;> subst ha <;> subst hp
        · refine ⟨p.supplied * a.supplyInterestRate *
            (now - p.lastUpdateTimestamp) / (10000 * secondsPerYear),
            p.borrowed * a.borrowInterestRate *
            (now - p.lastUpdateTimestamp) / (10000 * secondsPerYear),
            by simp, by simp⟩
        · refine ⟨p.supplied * a.supplyInterestRate *
            (now - p.lastUpdateTimestamp) / (10000 * secondsPerYear), 0,
            by simp, by simp⟩
        · refine ⟨0, p.borrowed * a.borrowInterestRate *
            (now - p.lastUpdateTimestamp) / (10000 * secondsPerYear),
            by simp, by simp⟩
        · exact ⟨0, 0, by simp, by simp⟩

/-- When the position was already touched at the current time (or never
touched at all), accrual changes no balance. -/
theorem updateInterest_same_time (a : Asset) (p : UserPosition) (now : Nat)
    (h : p.lastUpdateTimestamp = now ∨ p.lastUpdateTimestamp = 0) :
    updateInterest a p now = .ok (a, { p with lastUpdateTimestamp := now }) := by
  by_cases h0 : p.lastUpdateTimestamp = 0
  · simp [updateInterest, h0]
  · have hn : p.lastUpdateTimestamp = now := h.resolve_right h0
    have hrec : (⟨p.supplied, p.borrowed, now⟩ : UserPosition) = p := by
      rw [← hn]
    simp [updateInterest, h0, hn, hrec]

/-- `getAssetPrice` only fails for a missing asset or a non-positive price. -/
theorem getAssetPrice_error_eq (env : Env) (s : LendingState) (symbol : String)
    (e : Err) (h : getAssetPrice env s symbol = .error e) :
    e = .assetNotExist ∨ e = .invalidPrice := by
  unfold getAssetPrice at h
  by_cases h1 : (lookupAsset s symbol).tokenAddress = 0 <;>
    by_cases h2 : env.rawPrice ≤ 0 <;> simp [h1, h2] at h <;> simp [← h]

/-- `_checkHealthFactor` only fails for a missing asset or a bad price. -/
theorem checkHealthFactor_error_eq (env : Env) (s : LendingState)
    (symbol : String) (supplied borrowed : Nat) (e : Err)
    (h : checkHealthFactor env s symbol supplied borrowed = .error e) :
    e = .assetNotExist ∨ e = .invalidPrice := by
  unfold checkHealthFactor at h
  by_cases hb : borrowed = 0
  · simp [hb] at h
  · simp only [hb, if_false, ite_false] at h
    cases hp : getAssetPrice env s symbol with
    | error e' =>
        rw [hp] at h
        simp only [Bind.bind, Except.bind, Except.error.injEq] at h
        subst h
        exact getAssetPrice_error_eq env s symbol e' hp
    | ok v =>
        rw [hp] at h
        simp [Bind.bind, Except.bind] at h

/-- `_isHealthy` only fails for a missing asset or a bad price. -/
theorem isHealthy_error_eq (env : Env) (s : LendingState)
    (symbol : String) (user : Nat) (e : Err)
    (h : isHealthy env s symbol user = .error e) :
    e = .assetNotExist ∨ e = .invalidPrice := by
  unfold isHealthy at h
  by_cases hb : (lookupPosition s user symbol).borrowed = 0
  · simp [hb] at h
  · simp only [hb, if_false, ite_false] at h
    cases hp : getAssetPrice env s symbol with
    | error e' =>
        rw [hp] at h
        simp only [Bind.bind, Except.bind, Except.error.injEq] at h
        subst h
        exact getAssetPrice_error_eq env s symbol e' hp
    | ok v =>
        rw [hp] at h
        simp [Bind.bind, Except.bind] at h

/-- `getAssetPrice` depends on the state only through the asset record. -/
theorem getAssetPrice_congr (env : Env) (s s2 : LendingState) (symbol : String)
    (h : lookupAsset s symbol = lookupAsset s2 symbol) :
    getAssetPrice env s symbol = getAssetPrice env s2 symbol := by
  unfold getAssetPrice
  rw [h]

/-- `_checkHealthFactor` depends on the state only through the asset record. -/
theorem checkHealthFactor_congr (env : Env) (s s2 : LendingState)
    (symbol : String) (supplied borrowed : Nat)
    (h : lookupAsset s symbol = lookupAsset s2 symbol) :
    checkHealthFactor env s symbol supplied borrowed =
      checkHealthFactor env s2 symbol supplied borrowed := by
  unfold checkHealthFactor
  rw [getAssetPrice_congr env s s2 symbol h, h]

/-! ### C2: the `isActive` gate -/

/-- C2 counterexample: after registering an asset, opening a debt position
and then deactivating the asset, `repay` (amount 10, debt 50) and
`liquidate` both fail with the inactive-asset error, contradicting the
claim that repay and liquidate remain permitted while inactive. -/
theorem C2_counterexample :
    ((addAsset LendingState.init "ETH" 1 1 9000 9000 9001 0 10000).bind fun s1 =>
     (supply { now := 1000, rawPrice := 1, transferOk := true } s1 5 "ETH" 100).bind fun s2 =>
     (borrow { now := 1000, rawPrice := 1, transferOk := true } s2 5 "ETH" 50).bind fun s3 =>
     (updateAsset s3 "ETH" 9000 9000 9001 0 10000 false).map fun s4 =>
       (repay { now := 1000, rawPrice := 1, transferOk := true } s4 5 "ETH" 10,
        liquidate { now := 1000, rawPrice := 1, transferOk := true } s4 9 "ETH" 10))
    = .ok (.error .assetNotActive, .error .assetNotActive) := by rfl

/-- C2 (amended): while an asset has `isActive = false`, `repay` and
`liquidate` are rejected with the inactive-asset error just like supply,
withdraw and borrow: all five trade entry points are gated on `isActive`. -/
theorem C2_inactive_blocks_repay_and_liquidate (env : Env) (s : LendingState)
    (user borrower : Nat) (symbol : String) (amount : Nat)
    (h : (lookupAsset s symbol).isActive = false) :
    repay env s user symbol amount = .error .assetNotActive ∧
    liquidate env s borrower symbol amount = .error .assetNotActive := by
  constructor
  · unfold repay
    simp [h]
  · unfold liquidate
    simp [h]

/-- Witness for C2: the inactive gate fires on a concrete state. -/
theorem C2_inactive_blocks_repay_and_liquidate_witness :
    repay { now := 0, rawPrice := 1, transferOk := true } LendingState.init
        0 "ETH" 1 = .error .assetNotActive ∧
    liquidate { now := 0, rawPrice := 1, transferOk := true } LendingState.init
        0 "ETH" 1 = .error .assetNotActive :=
  C2_inactive_blocks_repay_and_liquidate
    { now := 0, rawPrice := 1, transferOk := true } LendingState.init
    0 0 "ETH" 1 (by rfl)

/-! ### C4: the risk-parameter invariant -/

/-- C4 counterexample: `addAsset` accepts `liquidationThreshold = 20000`,
so the claimed upper bound `liquidationThresholdBps ≤ 10000` is not
enforced. -/
theorem C4_counterexample :
    ((addAsset LendingState.init "X" 1 1 9000 9000 20000 0 0).map fun s =>
      (lookupAsset s "X").liquidationThreshold) = .ok 20000 := by rfl

/-- C4 (amended): `addAsset` and `updateAsset` enforce exactly three
risk-parameter inequalities — `collateralFactor ≤ 9000`,
`borrowFactor ≤ collateralFactor` and
`collateralFactor < liquidationThreshold` — and no upper bound on
`liquidationThreshold`; each call succeeds precisely when its existence
check and these three inequalities hold, and a successful `addAsset`
stores parameters satisfying them. -/
theorem C4_risk_parameter_checks (s : LendingState) (symbol : String)
    (tokenAddress priceFeedAddress cf bf lt sr br : Nat) (active : Bool) :
    ((∃ s', addAsset s symbol tokenAddress priceFeedAddress cf bf lt sr br
        = .ok s') ↔
      (lookupAsset s symbol).tokenAddress = 0 ∧ cf ≤ 9000 ∧ bf ≤ cf ∧ cf < lt) ∧
    ((∃ s', updateAsset s symbol cf bf lt sr br active = .ok s') ↔
      (lookupAsset s symbol).tokenAddress ≠ 0 ∧ cf ≤ 9000 ∧ bf ≤ cf ∧ cf < lt) ∧
    (∀ s', addAsset s symbol tokenAddress priceFeedAddress cf bf lt sr br
        = .ok s' →
      (lookupAsset s' symbol).collateralFactor ≤ 9000 ∧
      (lookupAsset s' symbol).borrowFactor ≤
        (lookupAsset s' symbol).collateralFactor ∧
      (lookupAsset s' symbol).collateralFactor <
        (lookupAsset s' symbol).liquidationThreshold) := by
  refine ⟨?_, ?_, ?_⟩
  · unfold addAsset
    by_cases h1 : (lookupAsset s symbol).tokenAddress = 0 <;>
      by_cases h2 : cf ≤ 9000 <;> by_cases h3 : bf ≤ cf <;>
      by_cases h4 : cf < lt <;> simp [h1, h2, h3, h4]
  · unfold updateAsset
    by_cases h1 : (lookupAsset s symbol).tokenAddress = 0 <;>
      by_cases h2 : cf ≤ 9000 <;> by_cases h3 : bf ≤ cf <;>
      by_cases h4 : cf < lt <;> simp [h1, h2, h3, h4]
  · intro s' hok
    unfold addAsset at hok
    by_cases h1 : (lookupAsset s symbol).tokenAddress = 0 <;>
      by_cases h2 : cf ≤ 9000 <;> by_cases h3 : bf ≤ cf <;>
      by_cases h4 : cf < lt <;> simp [h1, h2, h3, h4] at hok
    subst hok
    simp [lookupAsset, storeAsset, List.find?]
    exact ⟨h2, h3, h4⟩

/-! ### C10: unregistered assets -/

/-- C10: for an asset identifier that was never registered, the mapping
yields the all-zero record with `isActive = false`, so every
balance-mutating operation fails through the inactive-asset gate, while
the reads return the zero records instead of failing. -/
theorem C10_unregistered_defaults (env : Env) (s : LendingState)
    (user borrower : Nat) (symbol : String) (amount : Nat)
    (h1 : s.assets.find? (fun q => q.1 == symbol) = none)
    (h2 : s.userPositions.find? (fun q => q.1 == (user, symbol)) = none) :
    supply env s user symbol amount = .error .assetNotActive ∧
    withdraw env s user symbol amount = .error .assetNotActive ∧
    borrow env s user symbol amount = .error .assetNotActive ∧
    repay env s user symbol amount = .error .assetNotActive ∧
    liquidate env s borrower symbol amount = .error .assetNotActive ∧
    getAssetDetails s symbol = Asset.default ∧
    getUserPosition s user symbol = UserPosition.default := by
  have hd : lookupAsset s symbol = Asset.default := by
    simp [lookupAsset, h1]
  refine ⟨?_, ?_, ?_, ?_, ?_, ?_, ?_⟩
  · unfold supply; simp [hd, Asset.default]
  · unfold withdraw; simp [hd, Asset.default]
  · unfold borrow; simp [hd, Asset.default]
  · unfold repay; simp [hd, Asset.default]
  · unfold liquidate; simp [hd, Asset.default]
  · unfold getAssetDetails; exact hd
  · unfold getUserPosition lookupPosition; simp [h2]

/-- Witness for C10 on the initial (empty) state. -/
theorem C10_unregistered_defaults_witness :
    supply { now := 0, rawPrice := 1, transferOk := true } LendingState.init
        7 "X" 5 = .error .assetNotActive ∧
    withdraw { now := 0, rawPrice := 1, transferOk := true } LendingState.init
        7 "X" 5 = .error .assetNotActive ∧
    borrow { now := 0, rawPrice := 1, transferOk := true } LendingState.init
        7 "X" 5 = .error .assetNotActive ∧
    repay { now := 0, rawPrice := 1, transferOk := true } LendingState.init
        7 "X" 5 = .error .assetNotActive ∧
    liquidate { now := 0, rawPrice := 1, transferOk := true } LendingState.init
        8 "X" 5 = .error .assetNotActive ∧
    getAssetDetails LendingState.init "X" = Asset.default ∧
    getUserPosition LendingState.init 7 "X" = UserPosition.default :=
  C10_unregistered_defaults { now := 0, rawPrice := 1, transferOk := true }
    LendingState.init 7 8 "X" 5 (by rfl) (by rfl)

/-! ### Plumbing lemmas for `Except` binds -/

theorem ok_bind {α β : Type} (v : α) (f : α → Except Err β) :
    (Except.ok v >>= f) = f v := rfl

theorem error_bind {α β : Type} (e : Err) (f : α → Except Err β) :
    ((Except.error e : Except Err α) >>= f) = .error e := rfl

theorem bind_eq_ok {α β : Type} {x : Except Err α} {f : α → Except Err β}
    {b : β} (h : x >>= f = .ok b) : ∃ a, x = .ok a ∧ f a = .ok b := by
  cases x with
  | error e => rw [error_bind] at h; exact absurd h (by simp)
  | ok a => exact ⟨a, rfl, h⟩

/-! ### C1: the `totalSupplied ≥ totalBorrowed` invariant -/

/-- C1 counterexample: a concrete four-step reachable trace — register an
asset (100% borrow APR), supply 100, borrow 90, then repay 1 two years
later — ends with `totalBorrowed = 269 > totalSupplied = 100`: the interest
accrual performed by `repay` adds borrow interest without matching supply
interest, so the invariant is not preserved by every operation. -/
theorem C1_counterexample :
    ((addAsset LendingState.init "ETH" 1 1 9000 9000 9001 0 10000).bind fun s1 =>
     (supply { now := 1000, rawPrice := 1, transferOk := true } s1 5 "ETH" 100).bind fun s2 =>
     (borrow { now := 1000, rawPrice := 1, transferOk := true } s2 5 "ETH" 90).bind fun s3 =>
     (repay { now := 1000 + 2 * secondsPerYear, rawPrice := 1, transferOk := true }
        s3 5 "ETH" 1).map fun s4 =>
       ((lookupAsset s4 "ETH").totalSupplied, (lookupAsset s4 "ETH").totalBorrowed))
    = .ok (100, 269) := by rfl

/-- C1 (amended): `totalSupplied ≥ totalBorrowed` is not an invariant of
every operation (see the counterexample trace); what does hold is that
`supply`, `borrow` and `repay` preserve it whenever their interest-accrual
step is balance-neutral, i.e. when the touched position carries the current
timestamp or was never touched. -/
theorem C1_invariant_without_accrual (env : Env) (s : LendingState)
    (user : Nat) (symbol : String) (amount : Nat)
    (hacc : (lookupPosition s user symbol).lastUpdateTimestamp = env.now ∨
            (lookupPosition s user symbol).lastUpdateTimestamp = 0)
    (hinv : (lookupAsset s symbol).totalBorrowed ≤
            (lookupAsset s symbol).totalSupplied) :
    (∀ s', supply env s user symbol amount = .ok s' →
      (lookupAsset s' symbol).totalBorrowed ≤
        (lookupAsset s' symbol).totalSupplied) ∧
    (∀ s', borrow env s user symbol amount = .ok s' →
      (lookupAsset s' symbol).totalBorrowed ≤
        (lookupAsset s' symbol).totalSupplied) ∧
    (∀ s', repay env s user symbol amount = .ok s' →
      (lookupAsset s' symbol).totalBorrowed ≤
        (lookupAsset s' symbol).totalSupplied) := by
  have hupd := updateInterest_same_time (lookupAsset s symbol)
    (lookupPosition s user symbol) env.now hacc
  refine ⟨?_, ?_, ?_⟩
  · intro s' h
    unfold supply at h
    by_cases hact : (lookupAsset s symbol).isActive = false
    · simp [hact] at h
    · by_cases hamt : amount = 0
      · simp [hact, hamt] at h
      · simp only [hact, hamt, if_false, ite_false] at h
        rw [hupd, ok_bind] at h
        by_cases htr : env.transferOk = false
        · simp [htr] at h
        · simp [htr] at h
          subst h
          simp [lookupAsset_storePosition, lookupAsset_storeAsset_same]
          omega
  · intro s' h
    unfold borrow at h
    by_cases hact : (lookupAsset s symbol).isActive = false
    · simp [hact] at h
    · by_cases hamt : amount = 0
      · simp [hact, hamt] at h
      · by_cases hliq : (lookupAsset s symbol).totalSupplied <
            (lookupAsset s symbol).totalBorrowed + amount
        · simp [hact, hamt, hliq] at h
        · simp only [hact, hamt, hliq, if_false, ite_false] at h
          rw [hupd, ok_bind] at h
          simp only [] at h
          obtain ⟨healthy, hhe, h⟩ := bind_eq_ok h
          by_cases hh : healthy = false
          · simp [hh] at h
          · by_cases htr : env.transferOk = false
            · simp [hh, htr] at h
            · simp [hh, htr] at h
              subst h
              simp [lookupAsset_storePosition, lookupAsset_storeAsset_same]
              omega
  · intro s' h
    unfold repay at h
    by_cases hact : (lookupAsset s symbol).isActive = false
    · simp [hact] at h
    · by_cases hamt : amount = 0
      · simp [hact, hamt] at h
      · by_cases hbor : (lookupPosition s user symbol).borrowed = 0
        · simp [hact, hamt, hbor] at h
        · simp only [hact, hamt, hbor, if_false, ite_false] at h
          rw [hupd, ok_bind] at h
          by_cases htr : env.transferOk = false
          · simp [htr] at h
          · by_cases hund : (lookupAsset s symbol).totalBorrowed <
                (if amount > (lookupPosition s user symbol).borrowed
                  then (lookupPosition s user symbol).borrowed else amount)
            · simp [htr, hund] at h
            · simp [htr, hund] at h
              subst h
              simp [lookupAsset_storePosition, lookupAsset_storeAsset_same]
              exact le_trans hinv (Nat.le_add_right _ _)

/-- Witness for C1: on a concrete accrual-free state the preserved
invariant is checked by running `supply`. -/
theorem C1_invariant_without_accrual_witness :
    ((supply { now := 1000, rawPrice := 1, transferOk := true }
        (storePosition (storeAsset LendingState.init "ETH"
          { tokenAddress := 1, priceFeedAddress := 1, collateralFactor := 9000,
            borrowFactor := 9000, liquidationThreshold := 9001,
            totalSupplied := 100, totalBorrowed := 50,
            supplyInterestRate := 0, borrowInterestRate := 10000,
            isActive := true }) 5 "ETH"
          { supplied := 100, borrowed := 50, lastUpdateTimestamp := 1000 })
        5 "ETH" 10).map fun s' =>
      decide ((lookupAsset s' "ETH").totalBorrowed ≤
              (lookupAsset s' "ETH").totalSupplied)) = .ok true := by
  have h := (C1_invariant_without_accrual
      { now := 1000, rawPrice := 1, transferOk := true }
      (storePosition (storeAsset LendingState.init "ETH"
        { tokenAddress := 1, priceFeedAddress := 1, collateralFactor := 9000,
          borrowFactor := 9000, liquidationThreshold := 9001,
          totalSupplied := 100, totalBorrowed := 50,
          supplyInterestRate := 0, borrowInterestRate := 10000,
          isActive := true }) 5 "ETH"
        { supplied := 100, borrowed := 50, lastUpdateTimestamp := 1000 })
      5 "ETH" 10 (Or.inl (by rfl)) (by decide)).1
  obtain ⟨s', hs⟩ : ∃ s', supply { now := 1000, rawPrice := 1, transferOk := true }
      (storePosition (storeAsset LendingState.init "ETH"
        { tokenAddress := 1, priceFeedAddress := 1, collateralFactor := 9000,
          borrowFactor := 9000, liquidationThreshold := 9001,
          totalSupplied := 100, totalBorrowed := 50,
          supplyInterestRate := 0, borrowInterestRate := 10000,
          isActive := true }) 5 "ETH"
        { supplied := 100, borrowed := 50, lastUpdateTimestamp := 1000 })
      5 "ETH" 10 = .ok s' := ⟨_, rfl⟩
  rw [hs]
  simp only [Except.map]
  rw [decide_eq_true (h s' hs)]

/-! ### C3: the withdraw balance check -/

/-- C3 counterexample: a position with 100 supplied at 10% supply APR,
touched one year before, would have a post-accrual balance of 110 ≥ 105,
yet `withdraw` of 105 fails with the insufficient-balance error because the
check reads the pre-accrual balance. -/
theorem C3_counterexample :
    ((updateInterest
        { tokenAddress := 1, priceFeedAddress := 1, collateralFactor := 7500,
          borrowFactor := 7000, liquidationThreshold := 8500,
          totalSupplied := 100, totalBorrowed := 0,
          supplyInterestRate := 1000, borrowInterestRate := 2000,
          isActive := true }
        { supplied := 100, borrowed := 0, lastUpdateTimestamp := 1 }
        (1 + secondsPerYear)).map fun ap => ap.2.supplied) = .ok 110 ∧
    (100 : Nat) < 105 ∧
    withdraw { now := 1 + secondsPerYear, rawPrice := 1, transferOk := true }
      (storePosition (storeAsset LendingState.init "ETH"
        { tokenAddress := 1, priceFeedAddress := 1, collateralFactor := 7500,
          borrowFactor := 7000, liquidationThreshold := 8500,
          totalSupplied := 100, totalBorrowed := 0,
          supplyInterestRate := 1000, borrowInterestRate := 2000,
          isActive := true }) 5 "ETH"
        { supplied := 100, borrowed := 0, lastUpdateTimestamp := 1 })
      5 "ETH" 105 = .error .insufficientBalance :=
  ⟨by rfl, by decide, by rfl⟩

/-- C3 (amended): for an active asset and a nonzero amount, `withdraw`
fails with the insufficient-balance error exactly when `amount` exceeds the
PRE-accrual `position.supplied`: the balance check runs before the
interest-accrual step, not after it. -/
theorem C3_balance_check_pre_accrual (env : Env) (s : LendingState)
    (user : Nat) (symbol : String) (amount : Nat)
    (hact : (lookupAsset s symbol).isActive = true) (hamt : amount ≠ 0) :
    withdraw env s user symbol amount = .error .insufficientBalance ↔
      (lookupPosition s user symbol).supplied < amount := by
  unfold withdraw
  by_cases hbal : (lookupPosition s user symbol).supplied < amount
  · simp [hact, hamt, hbal]
  · simp only [hact, hamt, hbal, if_false, ite_false]
    constructor
    · intro h
      cases hu : updateInterest (lookupAsset s symbol)
          (lookupPosition s user symbol) env.now with
      | error e =>
          rw [hu, error_bind] at h
          have := updateInterest_error_eq _ _ _ _ hu
          simp [this] at h
      | ok ap =>
          rw [hu, ok_bind] at h
          simp only [Bool.true_eq_false, if_false, ite_false] at h
          cases hch : checkHealthFactor env
              (storePosition (storeAsset s symbol ap.1) user symbol ap.2)
              symbol (ap.2.supplied - amount) ap.2.borrowed with
          | error e =>
              rw [hch, error_bind] at h
              rcases checkHealthFactor_error_eq _ _ _ _ _ _ hch with he | he <;>
                simp [he] at h
          | ok b =>
              rw [hch, ok_bind] at h
              by_cases hb : b = false
              · simp [hb] at h
              · by_cases hund : ap.1.totalSupplied < amount
                · simp [hb, hund] at h
                · by_cases htr : env.transferOk = false
                  · simp [hb, hund, htr] at h
                  · simp [hb, hund, htr] at h
    · intro h
      exact h.elim

/-- Witness for C3 on a concrete state: 100 supplied, withdrawing 105. -/
theorem C3_balance_check_pre_accrual_witness :
    withdraw { now := 1 + secondsPerYear, rawPrice := 1, transferOk := true }
      (storePosition (storeAsset LendingState.init "ETH"
        { tokenAddress := 1, priceFeedAddress := 1, collateralFactor := 7500,
          borrowFactor := 7000, liquidationThreshold := 8500,
          totalSupplied := 100, totalBorrowed := 0,
          supplyInterestRate := 1000, borrowInterestRate := 2000,
          isActive := true }) 5 "ETH"
        { supplied := 100, borrowed := 0, lastUpdateTimestamp := 1 })
      5 "ETH" 105 = .error .insufficientBalance :=
  (C3_balance_check_pre_accrual
    { now := 1 + secondsPerYear, rawPrice := 1, transferOk := true }
    (storePosition (storeAsset LendingState.init "ETH"
      { tokenAddress := 1, priceFeedAddress := 1, collateralFactor := 7500,
        borrowFactor := 7000, liquidationThreshold := 8500,
        totalSupplied := 100, totalBorrowed := 0,
        supplyInterestRate := 1000, borrowInterestRate := 2000,
        isActive := true }) 5 "ETH"
      { supplied := 100, borrowed := 0, lastUpdateTimestamp := 1 })
    5 "ETH" 105 (by rfl) (by decide)).mpr (by decide)

/-! ### C5: the borrow health gate -/

/-- C5: a successful `borrow` implies the post-accrual position satisfies
`floor(supplied * price * collateralFactor / 10000) ≥ (borrowed + amount) * price`,
and whenever the gates pass but that inequality fails, `borrow` rejects
with `HealthFactorTooLow`. -/
theorem C5_borrow_health_gate (env : Env) (s : LendingState) (user : Nat)
    (symbol : String) (amount : Nat) (a1 : Asset) (p1 : UserPosition)
    (price : Nat)
    (hacc : updateInterest (lookupAsset s symbol)
      (lookupPosition s user symbol) env.now = .ok (a1, p1))
    (hprice : getAssetPrice env
      (storePosition (storeAsset s symbol a1) user symbol p1) symbol
      = .ok price) :
    (∀ s', borrow env s user symbol amount = .ok s' →
      (p1.borrowed + amount) * price ≤
        p1.supplied * price * (lookupAsset s symbol).collateralFactor / 10000) ∧
    ((lookupAsset s symbol).isActive = true → amount ≠ 0 →
      (lookupAsset s symbol).totalBorrowed + amount ≤
        (lookupAsset s symbol).totalSupplied →
      ¬ ((p1.borrowed + amount) * price ≤
          p1.supplied * price * (lookupAsset s symbol).collateralFactor / 10000) →
      borrow env s user symbol amount = .error .healthFactorTooLow) := by
  have hs1a : lookupAsset
      (storePosition (storeAsset s symbol a1) user symbol p1) symbol = a1 := by
    rw [lookupAsset_storePosition, lookupAsset_storeAsset_same]
  have hcf : a1.collateralFactor = (lookupAsset s symbol).collateralFactor := by
    obtain ⟨si, bi, hp1, ha1⟩ := updateInterest_ok_shape _ _ _ _ _ hacc
    rw [ha1]
  constructor
  · intro s' h
    unfold borrow at h
    by_cases hact : (lookupAsset s symbol).isActive = false
    · simp [hact] at h
    · by_cases hamt : amount = 0
      · simp [hact, hamt] at h
      · by_cases hliq : (lookupAsset s symbol).totalSupplied <
            (lookupAsset s symbol).totalBorrowed + amount
        · simp [hact, hamt, hliq] at h
        · simp only [hact, hamt, hliq, if_false, ite_false] at h
          rw [hacc, ok_bind] at h
          have hch : checkHealthFactor env
              (storePosition (storeAsset s symbol a1) user symbol p1) symbol
              p1.supplied (p1.borrowed + amount) =
              .ok (decide ((p1.borrowed + amount) * price ≤
                p1.supplied * price *
                  (lookupAsset s symbol).collateralFactor / 10000)) := by
            unfold checkHealthFactor
            have hz : ¬ (p1.borrowed + amount = 0) := by omega
            simp only [hz, if_false, ite_false]
            rw [hprice, ok_bind, hs1a, hcf]
          simp only [] at h
          rw [hch, ok_bind] at h
          by_cases hP : (p1.borrowed + amount) * price ≤
              p1.supplied * price * (lookupAsset s symbol).collateralFactor / 10000
          · exact hP
          · simp [hP] at h
  · intro hact hamt hliq hP
    unfold borrow
    have hact' : ¬ ((lookupAsset s symbol).isActive = false) := by
      rw [hact]; simp
    have hliq' : ¬ ((lookupAsset s symbol).totalSupplied <
        (lookupAsset s symbol).totalBorrowed + amount) := by omega
    simp only [hact', hamt, hliq', if_false, ite_false]
    rw [hacc, ok_bind]
    have hch : checkHealthFactor env
        (storePosition (storeAsset s symbol a1) user symbol p1) symbol
        p1.supplied (p1.borrowed + amount) =
        .ok (decide ((p1.borrowed + amount) * price ≤
          p1.supplied * price *
            (lookupAsset s symbol).collateralFactor / 10000)) := by
      unfold checkHealthFactor
      have hz : ¬ (p1.borrowed + amount = 0) := by omega
      simp only [hz, if_false, ite_false]
      rw [hprice, ok_bind, hs1a, hcf]
    simp only []
    rw [hch, ok_bind]
    simp [hP]

/-- Witness for C5: borrowing 95 against 100 supplied at a 90% collateral
factor is rejected with `HealthFactorTooLow`. -/
theorem C5_borrow_health_gate_witness :
    borrow { now := 1000, rawPrice := 1, transferOk := true }
      (storePosition (storeAsset LendingState.init "ETH"
        { tokenAddress := 1, priceFeedAddress := 1, collateralFactor := 9000,
          borrowFactor := 9000, liquidationThreshold := 9001,
          totalSupplied := 100, totalBorrowed := 0,
          supplyInterestRate := 0, borrowInterestRate := 10000,
          isActive := true }) 5 "ETH"
        { supplied := 100, borrowed := 0, lastUpdateTimestamp := 1000 })
      5 "ETH" 95 = .error .healthFactorTooLow :=
  (C5_borrow_health_gate { now := 1000, rawPrice := 1, transferOk := true }
    (storePosition (storeAsset LendingState.init "ETH"
      { tokenAddress := 1, priceFeedAddress := 1, collateralFactor := 9000,
        borrowFactor := 9000, liquidationThreshold := 9001,
        totalSupplied := 100, totalBorrowed := 0,
        supplyInterestRate := 0, borrowInterestRate := 10000,
        isActive := true }) 5 "ETH"
      { supplied := 100, borrowed := 0, lastUpdateTimestamp := 1000 })
    5 "ETH" 95
    { tokenAddress := 1, priceFeedAddress := 1, collateralFactor := 9000,
      borrowFactor := 9000, liquidationThreshold := 9001,
      totalSupplied := 100, totalBorrowed := 0,
      supplyInterestRate := 0, borrowInterestRate := 10000,
      isActive := true }
    { supplied := 100, borrowed := 0, lastUpdateTimestamp := 1000 }
    (1 * 10 ^ 10) (by rfl) (by rfl)).2 (by rfl) (by decide) (by decide)
    (by decide)

/-! ### Shared reductions for the liquidation path -/

/-- Price lookup on a state whose newest asset binding is `a1`. -/
theorem getAssetPrice_store (env : Env) (s : LendingState) (symbol : String)
    (user : Nat) (a1 : Asset) (p1 : UserPosition)
    (htok : a1.tokenAddress ≠ 0) (hpr : 0 < env.rawPrice) :
    getAssetPrice env (storePosition (storeAsset s symbol a1) user symbol p1)
      symbol = .ok (env.rawPrice.toNat * 10 ^ 10) := by
  unfold getAssetPrice
  simp only [lookupAsset_storePosition, lookupAsset_storeAsset_same]
  simp [htok, show ¬ env.rawPrice ≤ 0 by omega]

/-- `_isHealthy` on a state whose newest bindings are `a1` and `p1`
computes the liquidation-threshold comparison. -/
theorem isHealthy_store (env : Env) (s : LendingState) (symbol : String)
    (borrower : Nat) (a1 : Asset) (p1 : UserPosition)
    (hb : p1.borrowed ≠ 0) (htok : a1.tokenAddress ≠ 0)
    (hpr : 0 < env.rawPrice) :
    isHealthy env (storePosition (storeAsset s symbol a1) borrower symbol p1)
      symbol borrower =
      .ok (decide (p1.borrowed * (env.rawPrice.toNat * 10 ^ 10) ≤
        p1.supplied * (env.rawPrice.toNat * 10 ^ 10) *
          a1.liquidationThreshold / 10000)) := by
  unfold isHealthy
  simp only [lookupPosition_storePosition_same, lookupAsset_storePosition,
    lookupAsset_storeAsset_same]
  simp only [hb, if_false, ite_false]
  rw [getAssetPrice_store env s symbol borrower a1 p1 htok hpr, ok_bind]

/-! ### C6: the liquidation health gate -/

/-- C6: with the entry gates passed, `liquidate` fails with
`PositionHealthy` exactly when the borrower's post-accrual position
satisfies the liquidation-threshold inequality
`floor(supplied * price * liquidationThreshold / 10000) ≥ borrowed * price`. -/
theorem C6_liquidate_healthy_gate (env : Env) (s : LendingState)
    (borrower : Nat) (symbol : String) (amount : Nat) (a1 : Asset)
    (p1 : UserPosition)
    (hact : (lookupAsset s symbol).isActive = true)
    (hamt : amount ≠ 0)
    (hbor : (lookupPosition s borrower symbol).borrowed ≠ 0)
    (hacc : updateInterest (lookupAsset s symbol)
      (lookupPosition s borrower symbol) env.now = .ok (a1, p1))
    (htok : (lookupAsset s symbol).tokenAddress ≠ 0)
    (hpr : 0 < env.rawPrice) :
    (p1.borrowed * (env.rawPrice.toNat * 10 ^ 10) ≤
        p1.supplied * (env.rawPrice.toNat * 10 ^ 10) *
          (lookupAsset s symbol).liquidationThreshold / 10000 →
      liquidate env s borrower symbol amount = .error .positionHealthy) ∧
    (¬ (p1.borrowed * (env.rawPrice.toNat * 10 ^ 10) ≤
        p1.supplied * (env.rawPrice.toNat * 10 ^ 10) *
          (lookupAsset s symbol).liquidationThreshold / 10000) →
      liquidate env s borrower symbol amount ≠ .error .positionHealthy) := by
  obtain ⟨si, bi, hp1, ha1⟩ := updateInterest_ok_shape _ _ _ _ _ hacc
  have hb1 : p1.borrowed ≠ 0 := by
    rw [hp1]
    intro hc
    simp at hc
    omega
  have ha1tok : a1.tokenAddress ≠ 0 := by rw [ha1]; exact htok
  have ha1lt : a1.liquidationThreshold =
      (lookupAsset s symbol).liquidationThreshold := by rw [ha1]
  have hact' : ¬ ((lookupAsset s symbol).isActive = false) := by
    rw [hact]; simp
  constructor
  · intro hP
    unfold liquidate
    simp only [hact', hamt, hbor, if_false, ite_false]
    rw [hacc, ok_bind]
    simp only []
    rw [isHealthy_store env s symbol borrower a1 p1 hb1 ha1tok hpr, ok_bind,
      ha1lt, decide_eq_true hP]
    simp
  · intro hP
    unfold liquidate
    simp only [hact', hamt, hbor, if_false, ite_false]
    rw [hacc, ok_bind]
    simp only []
    rw [isHealthy_store env s symbol borrower a1 p1 hb1 ha1tok hpr, ok_bind,
      ha1lt, decide_eq_false hP]
    simp only [Bool.false_eq_true, if_false, ite_false]
    rw [getAssetPrice_store env s symbol borrower a1 p1 ha1tok hpr, ok_bind]
    repeat' split
    all_goals simp

/-- Witness for C6: a healthy concrete position (50 borrowed against 100
supplied, threshold 80%) cannot be liquidated. -/
theorem C6_liquidate_healthy_gate_witness :
    liquidate { now := 1000, rawPrice := 1, transferOk := true }
      (storePosition (storeAsset LendingState.init "ETH"
        { tokenAddress := 1, priceFeedAddress := 1, collateralFactor := 7500,
          borrowFactor := 7000, liquidationThreshold := 8000,
          totalSupplied := 100, totalBorrowed := 50,
          supplyInterestRate := 0, borrowInterestRate := 0,
          isActive := true }) 5 "ETH"
        { supplied := 100, borrowed := 50, lastUpdateTimestamp := 1000 })
      5 "ETH" 20 = .error .positionHealthy :=
  (C6_liquidate_healthy_gate { now := 1000, rawPrice := 1, transferOk := true }
    (storePosition (storeAsset LendingState.init "ETH"
      { tokenAddress := 1, priceFeedAddress := 1, collateralFactor := 7500,
        borrowFactor := 7000, liquidationThreshold := 8000,
        totalSupplied := 100, totalBorrowed := 50,
        supplyInterestRate := 0, borrowInterestRate := 0,
        isActive := true }) 5 "ETH"
      { supplied := 100, borrowed := 50, lastUpdateTimestamp := 1000 })
    5 "ETH" 20
    { tokenAddress := 1, priceFeedAddress := 1, collateralFactor := 7500,
      borrowFactor := 7000, liquidationThreshold := 8000,
      totalSupplied := 100, totalBorrowed := 50,
      supplyInterestRate := 0, borrowInterestRate := 0, isActive := true }
    { supplied := 100, borrowed := 50, lastUpdateTimestamp := 1000 }
    (by rfl) (by decide) (by decide) (by rfl) (by decide) (by decide)).1
    (by decide)

/-! ### C7: the liquidation seizure formula -/

/-- C7: the seized collateral `(a * p * 11000) / (p * 10000)` is
price-independent and equals `a * 11000 / 10000` for every positive price,
and `liquidate` fails with `InsufficientCollateral` whenever that value
exceeds the post-accrual supplied balance. -/
theorem C7_seizure_formula (env : Env) (s : LendingState)
    (borrower : Nat) (symbol : String) (amount : Nat) (a1 : Asset)
    (p1 : UserPosition)
    (hact : (lookupAsset s symbol).isActive = true)
    (hamt : amount ≠ 0)
    (hbor : (lookupPosition s borrower symbol).borrowed ≠ 0)
    (hacc : updateInterest (lookupAsset s symbol)
      (lookupPosition s borrower symbol) env.now = .ok (a1, p1))
    (htok : (lookupAsset s symbol).tokenAddress ≠ 0)
    (hpr : 0 < env.rawPrice)
    (hunh : ¬ (p1.borrowed * (env.rawPrice.toNat * 10 ^ 10) ≤
        p1.supplied * (env.rawPrice.toNat * 10 ^ 10) *
          (lookupAsset s symbol).liquidationThreshold / 10000))
    (hseize : p1.supplied < collateralToSeize
        (if amount > p1.borrowed then p1.borrowed else amount)
        (env.rawPrice.toNat * 10 ^ 10)) :
    (∀ la q, 0 < q → collateralToSeize la q = la * 11000 / 10000) ∧
    liquidate env s borrower symbol amount = .error .insufficientCollateral := by
  obtain ⟨si, bi, hp1, ha1⟩ := updateInterest_ok_shape _ _ _ _ _ hacc
  have hb1 : p1.borrowed ≠ 0 := by
    rw [hp1]
    intro hc
    simp at hc
    omega
  have ha1tok : a1.tokenAddress ≠ 0 := by rw [ha1]; exact htok
  have ha1lt : a1.liquidationThreshold =
      (lookupAsset s symbol).liquidationThreshold := by rw [ha1]
  have hact' : ¬ ((lookupAsset s symbol).isActive = false) := by
    rw [hact]; simp
  constructor
  · intro la q hq
    unfold collateralToSeize
    rw [show la * q * 11000 = q * (la * 11000) by ring,
        Nat.mul_div_mul_left _ _ hq]
  · unfold liquidate
    simp only [hact', hamt, hbor, if_false, ite_false]
    rw [hacc, ok_bind]
    simp only []
    rw [isHealthy_store env s symbol borrower a1 p1 hb1 ha1tok hpr, ok_bind,
      ha1lt, decide_eq_false hunh]
    simp only [Bool.false_eq_true, if_false, ite_false]
    rw [getAssetPrice_store env s symbol borrower a1 p1 ha1tok hpr, ok_bind]
    rcases Nat.lt_or_ge p1.borrowed amount with hla | hla
    · simp only [if_pos hla] at hseize ⊢
      repeat' split
      all_goals first
        | rfl
        | (exfalso; omega)
        | (exfalso; simp_all)
    · have hla' : ¬ (p1.borrowed < amount) := by omega
      simp only [if_neg hla'] at hseize ⊢
      repeat' split
      all_goals first
        | rfl
        | (exfalso; omega)
        | (exfalso; simp_all)

/-- Witness for C7: repaying 60 of a 90 debt would seize 66 collateral,
more than the 50 supplied. -/
theorem C7_seizure_formula_witness :
    (∀ la q, 0 < q → collateralToSeize la q = la * 11000 / 10000) ∧
    liquidate { now := 1000, rawPrice := 1, transferOk := true }
      (storePosition (storeAsset LendingState.init "ETH"
        { tokenAddress := 1, priceFeedAddress := 1, collateralFactor := 7500,
          borrowFactor := 7000, liquidationThreshold := 8000,
          totalSupplied := 100, totalBorrowed := 90,
          supplyInterestRate := 0, borrowInterestRate := 0,
          isActive := true }) 5 "ETH"
        { supplied := 50, borrowed := 90, lastUpdateTimestamp := 1000 })
      5 "ETH" 60 = .error .insufficientCollateral :=
  C7_seizure_formula { now := 1000, rawPrice := 1, transferOk := true }
    (storePosition (storeAsset LendingState.init "ETH"
      { tokenAddress := 1, priceFeedAddress := 1, collateralFactor := 7500,
        borrowFactor := 7000, liquidationThreshold := 8000,
        totalSupplied := 100, totalBorrowed := 90,
        supplyInterestRate := 0, borrowInterestRate := 0,
        isActive := true }) 5 "ETH"
      { supplied := 50, borrowed := 90, lastUpdateTimestamp := 1000 })
    5 "ETH" 60
    { tokenAddress := 1, priceFeedAddress := 1, collateralFactor := 7500,
      borrowFactor := 7000, liquidationThreshold := 8000,
      totalSupplied := 100, totalBorrowed := 90,
      supplyInterestRate := 0, borrowInterestRate := 0, isActive := true }
    { supplied := 50, borrowed := 90, lastUpdateTimestamp := 1000 }
    (by rfl) (by decide) (by decide) (by rfl) (by decide) (by decide)
    (by decide) (by decide)

/-! ### C8: the accrual algorithm -/

/-- The accrual algorithm exactly as the specification words it (C8):
unset timestamp ⟹ stamp only; zero elapsed ⟹ no mutation; otherwise add
`floor(balance * rate * elapsed / (10000 * secondsPerYear))` to the
position balance and the asset aggregate on both sides, unconditionally,
and stamp the position.  Kept separate from `updateInterest` (which guards
each addition by `balance > 0`) so the two can be compared. -/
def specAccrual (a : Asset) (p : UserPosition) (now : Nat) :
    Asset × UserPosition :=
  if p.lastUpdateTimestamp = 0 then (a, { p with lastUpdateTimestamp := now })
  else
    let elapsed := now - p.lastUpdateTimestamp
    if elapsed = 0 then (a, p)
    else
      let supplyInterest :=
        p.supplied * a.supplyInterestRate * elapsed / (10000 * secondsPerYear)
      let borrowInterest :=
        p.borrowed * a.borrowInterestRate * elapsed / (10000 * secondsPerYear)
      ({ a with totalSupplied := a.totalSupplied + supplyInterest,
                totalBorrowed := a.totalBorrowed + borrowInterest },
       { p with supplied := p.supplied + supplyInterest,
                borrowed := p.borrowed + borrowInterest,
                lastUpdateTimestamp := now })

/-- C8: for any non-time-reversed call, `_updateInterest` computes exactly
the specified algorithm (the `> 0` guards in the code are immaterial since
a zero balance earns zero interest). -/
theorem C8_accrual_matches_spec (a : Asset) (p : UserPosition) (now : Nat)
    (h : p.lastUpdateTimestamp ≤ now) :
    updateInterest a p now = .ok (specAccrual a p now) := by
  by_cases h0 : p.lastUpdateTimestamp = 0
  · simp [updateInterest, specAccrual, h0]
  · have hlt : ¬ now < p.lastUpdateTimestamp := by omega
    by_cases he : now - p.lastUpdateTimestamp = 0
    · simp [updateInterest, specAccrual, h0, hlt, he]
    · by_cases hs : 0 < p.supplied <;> by_cases hb : 0 < p.borrowed
      · simp [updateInterest, specAccrual, h0, hlt, he, hs, hb]
      · have hb0 : p.borrowed = 0 := by omega
        simp [updateInterest, specAccrual, h0, hlt, he, hs, hb0]
      · have hs0 : p.supplied = 0 := by omega
        simp [updateInterest, specAccrual, h0, hlt, he, hs0, hb]
      · have hs0 : p.supplied = 0 := by omega
        have hb0 : p.borrowed = 0 := by omega
        simp [updateInterest, specAccrual, h0, hlt, he, hs0, hb0]

/-- Witness for C8 at a concrete position, one year elapsed. -/
theorem C8_accrual_matches_spec_witness :
    updateInterest
      { tokenAddress := 1, priceFeedAddress := 1, collateralFactor := 7500,
        borrowFactor := 7000, liquidationThreshold := 8500,
        totalSupplied := 100, totalBorrowed := 50,
        supplyInterestRate := 1000, borrowInterestRate := 2000,
        isActive := true }
      { supplied := 100, borrowed := 50, lastUpdateTimestamp := 1 }
      (1 + secondsPerYear) =
    .ok (specAccrual
      { tokenAddress := 1, priceFeedAddress := 1, collateralFactor := 7500,
        borrowFactor := 7000, liquidationThreshold := 8500,
        totalSupplied := 100, totalBorrowed := 50,
        supplyInterestRate := 1000, borrowInterestRate := 2000,
        isActive := true }
      { supplied := 100, borrowed := 50, lastUpdateTimestamp := 1 }
      (1 + secondsPerYear)) :=
  C8_accrual_matches_spec _ _ _ (by decide)

/-! ### C9: the supply/withdraw round trip -/

/-- Accrual on a position already stamped with the current time is the
identity. -/
theorem updateInterest_now (a : Asset) (su bo now : Nat) :
    updateInterest a ⟨su, bo, now⟩ now = .ok (a, ⟨su, bo, now⟩) := by
  have h := updateInterest_same_time a ⟨su, bo, now⟩ now (Or.inl rfl)
  simpa using h

/-- C9: if `supply x` succeeds and `withdraw x` is called at the same
timestamp (so no interest accrues anywhere in the pair of calls) and its
health check passes, the withdraw succeeds and restores `position.supplied`,
`position.borrowed` and `asset.totalSupplied` to their values before the
supply. -/
theorem C9_supply_withdraw_roundtrip (env : Env) (s : LendingState)
    (user : Nat) (symbol : String) (x : Nat) (s1 : LendingState)
    (hact : (lookupAsset s symbol).isActive = true)
    (hx : x ≠ 0)
    (hlast : (lookupPosition s user symbol).lastUpdateTimestamp = env.now ∨
             (lookupPosition s user symbol).lastUpdateTimestamp = 0)
    (htr : env.transferOk = true)
    (hs1 : supply env s user symbol x = .ok s1)
    (hhealth : checkHealthFactor env s1 symbol
        (lookupPosition s user symbol).supplied
        (lookupPosition s user symbol).borrowed = .ok true) :
    ∃ s2, withdraw env s1 user symbol x = .ok s2 ∧
      (lookupPosition s2 user symbol).supplied =
        (lookupPosition s user symbol).supplied ∧
      (lookupPosition s2 user symbol).borrowed =
        (lookupPosition s user symbol).borrowed ∧
      (lookupAsset s2 symbol).totalSupplied =
        (lookupAsset s symbol).totalSupplied := by
  have hupd := updateInterest_same_time (lookupAsset s symbol)
    (lookupPosition s user symbol) env.now hlast
  have hact' : ¬ ((lookupAsset s symbol).isActive = false) := by
    rw [hact]; simp
  unfold supply at hs1
  simp only [hact', hx, if_false, ite_false] at hs1
  rw [hupd, ok_bind] at hs1
  simp [htr] at hs1
  have hA1 : lookupAsset s1 symbol =
      { lookupAsset s symbol with
        totalSupplied := (lookupAsset s symbol).totalSupplied + x } := by
    rw [← hs1]
    simp [lookupAsset_storePosition, lookupAsset_storeAsset_same]
  have hP1 : lookupPosition s1 user symbol =
      ⟨(lookupPosition s user symbol).supplied + x,
        (lookupPosition s user symbol).borrowed, env.now⟩ := by
    rw [← hs1]
    simp [lookupPosition_storePosition_same]
  have hbal : ¬ ((lookupPosition s user symbol).supplied + x < x) := by omega
  have hund : ¬ ((lookupAsset s symbol).totalSupplied + x < x) := by omega
  unfold withdraw
  rw [hA1, hP1]
  simp only [hact, hx, hbal, if_false, ite_false]
  rw [updateInterest_now, ok_bind]
  simp only [Nat.add_sub_cancel]
  have hstep : checkHealthFactor env
      (storePosition (storeAsset s1 symbol
        { tokenAddress := (lookupAsset s symbol).tokenAddress,
          priceFeedAddress := (lookupAsset s symbol).priceFeedAddress,
          collateralFactor := (lookupAsset s symbol).collateralFactor,
          borrowFactor := (lookupAsset s symbol).borrowFactor,
          liquidationThreshold := (lookupAsset s symbol).liquidationThreshold,
          totalSupplied := (lookupAsset s symbol).totalSupplied + x,
          totalBorrowed := (lookupAsset s symbol).totalBorrowed,
          supplyInterestRate := (lookupAsset s symbol).supplyInterestRate,
          borrowInterestRate := (lookupAsset s symbol).borrowInterestRate,
          isActive := true }) user symbol
        { supplied := (lookupPosition s user symbol).supplied + x,
          borrowed := (lookupPosition s user symbol).borrowed,
          lastUpdateTimestamp := env.now }) symbol
      (lookupPosition s user symbol).supplied
      (lookupPosition s user symbol).borrowed = .ok true := by
    rw [checkHealthFactor_congr env _ s1 symbol _ _
      (by simp [lookupAsset_storePosition, lookupAsset_storeAsset_same, hA1, hact])]
    exact hhealth
  rw [hstep, ok_bind]
  have htrue : ¬ (true = false) := by simp
  have htr' : ¬ (env.transferOk = false) := by rw [htr]; simp
  simp only [if_neg htrue, if_neg hund, if_neg htr']
  refine ⟨_, rfl, ?_, ?_, ?_⟩
  · simp [lookupPosition_storePosition_same]
  · simp [lookupPosition_storePosition_same]
  · simp [lookupAsset_storePosition, lookupAsset_storeAsset_same]

/-- Witness for C9: supplying then withdrawing 50 at the same time on a
fresh position restores all balances. -/
theorem C9_supply_withdraw_roundtrip_witness :
    ∃ s2, withdraw { now := 17, rawPrice := 1, transferOk := true }
        (storePosition (storeAsset
          (storePosition (storeAsset
            (storeAsset LendingState.init "ETH"
              { tokenAddress := 1, priceFeedAddress := 1,
                collateralFactor := 7500, borrowFactor := 7000,
                liquidationThreshold := 8500, totalSupplied := 0,
                totalBorrowed := 0, supplyInterestRate := 1000,
                borrowInterestRate := 2000, isActive := true })
            "ETH"
            { tokenAddress := 1, priceFeedAddress := 1,
              collateralFactor := 7500, borrowFactor := 7000,
              liquidationThreshold := 8500, totalSupplied := 0,
              totalBorrowed := 0, supplyInterestRate := 1000,
              borrowInterestRate := 2000, isActive := true })
            5 "ETH" ⟨0, 0, 17⟩)
          "ETH"
          { tokenAddress := 1, priceFeedAddress := 1,
            collateralFactor := 7500, borrowFactor := 7000,
            liquidationThreshold := 8500, totalSupplied := 0 + 50,
            totalBorrowed := 0, supplyInterestRate := 1000,
            borrowInterestRate := 2000, isActive := true })
          5 "ETH" ⟨0 + 50, 0, 17⟩)
        5 "ETH" 50 = .ok s2 ∧
      (lookupPosition s2 5 "ETH").supplied =
        (lookupPosition (storeAsset LendingState.init "ETH"
          { tokenAddress := 1, priceFeedAddress := 1,
            collateralFactor := 7500, borrowFactor := 7000,
            liquidationThreshold := 8500, totalSupplied := 0,
            totalBorrowed := 0, supplyInterestRate := 1000,
            borrowInterestRate := 2000, isActive := true }) 5 "ETH").supplied ∧
      (lookupPosition s2 5 "ETH").borrowed =
        (lookupPosition (storeAsset LendingState.init "ETH"
          { tokenAddress := 1, priceFeedAddress := 1,
            collateralFactor := 7500, borrowFactor := 7000,
            liquidationThreshold := 8500, totalSupplied := 0,
            totalBorrowed := 0, supplyInterestRate := 1000,
            borrowInterestRate := 2000, isActive := true }) 5 "ETH").borrowed ∧
      (lookupAsset s2 "ETH").totalSupplied =
        (lookupAsset (storeAsset LendingState.init "ETH"
          { tokenAddress := 1, priceFeedAddress := 1,
            collateralFactor := 7500, borrowFactor := 7000,
            liquidationThreshold := 8500, totalSupplied := 0,
            totalBorrowed := 0, supplyInterestRate := 1000,
            borrowInterestRate := 2000, isActive := true }) "ETH").totalSupplied :=
  C9_supply_withdraw_roundtrip { now := 17, rawPrice := 1, transferOk := true }
    (storeAsset LendingState.init "ETH"
      { tokenAddress := 1, priceFeedAddress := 1, collateralFactor := 7500,
        borrowFactor := 7000, liquidationThreshold := 8500,
        totalSupplied := 0, totalBorrowed := 0, supplyInterestRate := 1000,
        borrowInterestRate := 2000, isActive := true })
    5 "ETH" 50 _ (by rfl) (by decide) (Or.inr (by rfl)) (by rfl) (by rfl)
    (by rfl)
